import Mathlib

/-!
# Verification of the Musafir authentication core

A shallow embedding of the authentication core of the Musafir repository
(Node/Express/Mongoose backend, React frontend): credential hashing,
principal registration and login, JWT issuance and verification, the
token-revocation (blacklist) ledger, the per-request verifier middleware
(`authUser` / `authCaptain`), the logout controllers, and the client-side
protect-wrapper guards.

External libraries (bcrypt, jsonwebtoken, MongoDB/Mongoose primitives)
are modelled by their documented semantics; all repository code
(models, services, controllers, routes, middleware, frontend wrappers)
is translated function by function from the source.

Time is modelled as a natural number of seconds (Unix time).
-/

namespace Musafir

/-- One day in seconds: `expiresIn: '1d'` for JWTs and `expires: '1d'`
(TTL) for blacklist entries both denote this duration. -/
def oneDay : Nat := 86400

/-! ## bcrypt (external library, abstract model)

`bcrypt.hash(pw, 10)` produces a salted one-way hash; each call may
produce a different stored value because the salt is randomized per
call, and only `bcrypt.compare` can check equality.  We model a hash
abstractly as the pair (plaintext, salt): `compare` succeeds exactly
when the candidate plaintext equals the hashed one, and distinct salts
give distinct stored values.  Real bcrypt digests are 60-character
strings; `BHash.strLength` records that, which is what Mongoose string
validators (e.g. `minlength: 8` on the captain password path) see. -/

structure BHash where
  pw : String
  salt : Nat
deriving DecidableEq, Repr

/-- `bcrypt.hash(password, 10)` with a given random salt. -/
def bcryptHash (password : String) (salt : Nat) : BHash := ⟨password, salt⟩

/-- `bcrypt.compare(password, hash)`. -/
def bcryptCompare (password : String) (h : BHash) : Bool := password == h.pw

/-- The stored digest string of a bcrypt hash is always 60 characters. -/
def BHash.strLength (_ : BHash) : Nat := 60

/-! ## jsonwebtoken (external library, abstract model)

`jwt.sign({_id}, secret, {expiresIn: '1d'})` produces a token string
that encodes the payload (`_id`, the implicit `iat` issue time, and
`exp = iat + 1d`) and is bound to the signing secret.  Two sign calls
with the same payload, time and secret produce identical strings, so
token equality is structural equality of this record. -/

structure Token where
  subjectId : Nat   -- the `_id` claim of the payload
  iat : Nat         -- issued-at, set by jwt.sign to the current time
  exp : Nat         -- expiry claim, `iat + 1d` under `expiresIn: '1d'`
  secret : String   -- the signing secret the signature is bound to
deriving DecidableEq, Repr

/-- `jwt.sign({ _id: id }, secret, { expiresIn: '1d' })` at time `now`
(this is the body of both `generateAuthToken` methods). -/
def jwtSign (id : Nat) (secret : String) (now : Nat) : Token :=
  { subjectId := id, iat := now, exp := now + oneDay, secret := secret }

/-- `userSchema.methods.generateAuthToken` and
`captainSchema.methods.generateAuthToken` (identical bodies):
`jwt.sign({_id: this._id}, process.env.JWT_SECRET, {expiresIn: "1d"})`. -/
def generateAuthToken (id : Nat) (secret : String) (now : Nat) : Token :=
  jwtSign id secret now

/-- `jwt.verify(token, secret)` at time `now`: returns the decoded
`_id` claim, or `none` when the signature does not match the secret or
the token is expired (`now ≥ exp`); in the source those failures are
thrown and handled by the enclosing `catch`. -/
def jwtVerify (t : Token) (secret : String) (now : Nat) : Option Nat :=
  if t.secret == secret && decide (now < t.exp) then some t.subjectId else none

/-! ## Principal rows and their serializations

`UserRow` / `CaptainRow` are the persisted documents (the password hash
is always physically present).  `UserDoc` / `CaptainDoc` are documents
as returned by a query or by `create`: the `password` field is `none`
when the Mongoose projection excluded it (`select: false` by default,
`.select("-password")`), and `some` when it was explicitly included
(`.select("+password")`) or when the document came fresh out of
`create` (Mongoose `select: false` only affects queries, not the
document returned by `create`, so there the hash is present). -/

structure UserRow where
  id : Nat
  firstname : String
  lastname : Option String
  email : String
  password : BHash
deriving DecidableEq, Repr

structure UserDoc where
  id : Nat
  firstname : String
  lastname : Option String
  email : String
  password : Option BHash
deriving DecidableEq, Repr

/-- Serialize a user row including the password path (projection
`+password`, or the document returned by `create`). -/
def UserRow.toDocWithPassword (r : UserRow) : UserDoc :=
  ⟨r.id, r.firstname, r.lastname, r.email, some r.password⟩

/-- Serialize a user row with the password path excluded (the default
projection, or `.select("-password")`). -/
def UserRow.toDocNoPassword (r : UserRow) : UserDoc :=
  ⟨r.id, r.firstname, r.lastname, r.email, none⟩

inductive VehicleType
  | car | motorcycle | auto
deriving DecidableEq, Repr

/-- Captain `status` enum, default `inactive` at creation. -/
inductive CStatus
  | active | inactive
deriving DecidableEq, Repr

structure Vehicle where
  color : String
  plate : String
  capacity : Int
  vehicleType : VehicleType
deriving DecidableEq, Repr

structure CaptainRow where
  id : Nat
  firstname : String
  lastname : Option String
  email : String
  password : BHash
  status : CStatus
  vehicle : Vehicle
deriving DecidableEq, Repr

structure CaptainDoc where
  id : Nat
  firstname : String
  lastname : Option String
  email : String
  password : Option BHash
  status : CStatus
  vehicle : Vehicle
deriving DecidableEq, Repr

def CaptainRow.toDocWithPassword (r : CaptainRow) : CaptainDoc :=
  ⟨r.id, r.firstname, r.lastname, r.email, some r.password, r.status, r.vehicle⟩

def CaptainRow.toDocNoPassword (r : CaptainRow) : CaptainDoc :=
  ⟨r.id, r.firstname, r.lastname, r.email, none, r.status, r.vehicle⟩

/-! ## Revocation ledger (blacklistToken model)

`blacklistTokenSchema` (defined in the repository's
`models/blacklistToken.model.js`, reproduced verbatim in
`ProjectWalkThrough/07-userLogoutRoute.md`): a `token` string field
with a unique index, and a `createdAt` date defaulting to now with
`expires: '1d'` — a MongoDB TTL index that deletes the document one day
after `createdAt`.  We idealize TTL eviction as immediate: at time
`now` the live collection is `ttlActive bl now`. -/

structure BlEntry where
  token : Token
  createdAt : Nat
deriving DecidableEq, Repr

/-- TTL window of the blacklist collection (`expires: '1d'`). -/
def blacklistTtl : Nat := oneDay

/-- The blacklist documents still present at time `now`: MongoDB's TTL
monitor removes a document once `now ≥ createdAt + blacklistTtl`. -/
def ttlActive (bl : List BlEntry) (now : Nat) : List BlEntry :=
  bl.filter (fun e => decide (now < e.createdAt + blacklistTtl))

/-- `blacklistTokenModel.findOne({ token })` at time `now`. -/
def blacklistFindOne (bl : List BlEntry) (now : Nat) (t : Token) : Option BlEntry :=
  (ttlActive bl now).find? (fun e => e.token == t)

/-- `blacklistTokenModel.create({ token })`: inserts a new entry with
`createdAt := now`, or raises the unique-index (E11000 duplicate key)
error when an entry for the same token string is still present. -/
def blacklistCreate (bl : List BlEntry) (now : Nat) (t : Token) :
    Except Unit (List BlEntry) :=
  if (ttlActive bl now).any (fun e => e.token == t) then
    Except.error ()
  else
    Except.ok (ttlActive bl now ++ [⟨t, now⟩])

/-! ## Database state -/

structure DB where
  users : List UserRow
  captains : List CaptainRow
  blacklist : List BlEntry
  nextId : Nat   -- models ObjectId assignment for newly created rows
deriving DecidableEq, Repr

/-! ## Requests and responses -/

/-- The token-carrying parts of an Express request:
`req.cookies.token` and the bearer value parsed from
`req.headers.authorization` (`"Bearer <token>"` split at the space). -/
structure Request where
  cookieToken : Option Token
  headerBearer : Option Token
deriving DecidableEq, Repr

/-- `req.cookies.token || req.headers.authorization?.split(" ")[1]` —
the cookie takes precedence when present. -/
def extractToken (req : Request) : Option Token :=
  req.cookieToken.orElse (fun _ => req.headerBearer)

/-- The JSON bodies produced by the auth controllers and middleware. -/
inductive RBody
  | msg (message : String)
  | errs (errors : List String)
  | userWithToken (message : String) (user : UserDoc) (token : Token)
  | userOnly (user : UserDoc)
  | captainWithToken (message : String) (token : Token) (captain : CaptainDoc)
  | captainProfile (message : String) (captain : CaptainDoc)
deriving DecidableEq, Repr

/-- Whether a serialized response body carries the stored secret hash
(a `password` field that survived into the JSON output). -/
def RBody.leaksHash : RBody → Bool
  | .userWithToken _ u _ => u.password.isSome
  | .userOnly u => u.password.isSome
  | .captainWithToken _ _ c => c.password.isSome
  | .captainProfile _ c => c.password.isSome
  | _ => false

structure Response where
  status : Nat
  body : RBody
  setCookie : Option Token := none
  clearCookie : Bool := false
deriving DecidableEq, Repr

/-! ## Email format validators (the `match` regexes of the two schemas)

User schema: `/^[a-zA-Z0-9._%+-]+@[a-zA-Z0-9.-]+\.[a-zA-Z]{2,}$/`.
Captain schema: `/^\w+([\.-]?\w+)*@\w+([\.-]?\w+)*(\.\w{2,3})+$/`.
Both are implemented as total functions on the character list with the
exact backtracking semantics of the regexes. -/

/-- Character class `[a-zA-Z0-9._%+-]` (user-regex local part). -/
def userLocalChar (c : Char) : Bool :=
  c.isAlpha || c.isDigit || c == '.' || c == '_' || c == '%' || c == '+' || c == '-'

/-- Character class `[a-zA-Z0-9.-]` (user-regex domain part). -/
def userDomainChar (c : Char) : Bool :=
  c.isAlpha || c.isDigit || c == '.' || c == '-'

/-- `\.[a-zA-Z]{2,}$` applied after the last dot: checks that `tld` is
at least two alphabetic characters. -/
def userTldOk (tld : List Char) : Bool :=
  decide (2 ≤ tld.length) && tld.all (fun c => c.isAlpha)

/-- The user schema's email regex
`/^[a-zA-Z0-9._%+-]+@[a-zA-Z0-9.-]+\.[a-zA-Z]{2,}$/`: exactly one `@`;
a nonempty local part over its class; and a domain of the shape
`d.tld` where `d` is nonempty over `[a-zA-Z0-9.-]` and `tld` (the
segment after the last dot, since an all-alphabetic `tld` contains no
dot) has at least two alphabetic characters. -/
def userEmailOk (s : String) : Bool :=
  match s.toList.splitOn '@' with
  | [localPart, domain] =>
    (!localPart.isEmpty) && localPart.all userLocalChar &&
      (match domain.splitOn '.' with
       | [] => false
       | [_] => false   -- no dot in the domain
       | segs =>
         let tld := segs.getLast!
         let d := List.intercalate ['.'] segs.dropLast
         (!d.isEmpty) && d.all userDomainChar && userTldOk tld)
  | _ => false

/-- `\w`: word character `[A-Za-z0-9_]`. -/
def wordChar (c : Char) : Bool := c.isAlpha || c.isDigit || c == '_'

/-- `[\.-]`: the separator class of the captain regex. -/
def sepChar (c : Char) : Bool := c == '.' || c == '-'

/-- `\w+([\.-]?\w+)*`: nonempty, every character a word character or a
single separator, starting and ending with a word character, and no
two adjacent separators. -/
def wordRun (cs : List Char) : Bool :=
  (!cs.isEmpty) && cs.all (fun c => wordChar c || sepChar c) &&
    (match cs.head? with | some c => wordChar c | none => false) &&
    (match cs.getLast? with | some c => wordChar c | none => false) &&
    ((cs.zip cs.tail).all (fun p => !(sepChar p.1 && sepChar p.2)))

/-- `(\.\w{2,3})+$`: one or more groups of a dot followed by two or
three word characters, consuming the whole input (with the regex
engine's backtracking over the `{2,3}` choice). -/
def tldGroups : List Char → Bool
  | '.' :: c1 :: c2 :: c3 :: rest =>
    wordChar c1 && wordChar c2 &&
      ((wordChar c3 && (rest.isEmpty || tldGroups rest)) || tldGroups (c3 :: rest))
  | ['.', c1, c2] => wordChar c1 && wordChar c2
  | _ => false

/-- The captain schema's email regex
`/^\w+([\.-]?\w+)*@\w+([\.-]?\w+)*(\.\w{2,3})+$/`: exactly one `@`, a
word-run local part, and a domain splittable into a word-run prefix
followed by one or more `.\w{2,3}` groups (any split point, as the
backtracking engine would find). -/
def captainEmailOk (s : String) : Bool :=
  match s.toList.splitOn '@' with
  | [localPart, domain] =>
    wordRun localPart &&
      (List.range (domain.length + 1)).any
        (fun i => wordRun (domain.take i) && tldGroups (domain.drop i))
  | _ => false

/-- JavaScript `String.prototype.toLowerCase` (the Mongoose
`lowercase: true` setter on the captain email path). -/
def jsToLowerCase (s : String) : String := ⟨s.data.map Char.toLower⟩

/-! ## Mongoose `create` for the two principal collections -/

/-- Errors thrown inside the service/model layer: a failed schema
validation or `required`-check in the service, or a duplicate-key
(E11000) rejection from a unique index. -/
inductive DbErr
  | validationFailed
  | duplicateKey
deriving DecidableEq, Repr

/-- The `userSchema` field validators: `fullname.firstname` required
with `minlength 3` / `maxlength 15`; `fullname.lastname` optional with
the same bounds when present; `email` required and matching the user
email regex; `password` required (our `BHash` is always present). -/
def userSchemaValid (firstname : String) (lastname : Option String)
    (email : String) : Bool :=
  decide (3 ≤ firstname.length) && decide (firstname.length ≤ 15) &&
    (match lastname with
     | none => true
     | some l => decide (3 ≤ l.length) && decide (l.length ≤ 15)) &&
    (!email.isEmpty) && userEmailOk email

/-- `userModel.create(...)`: runs the schema validators, then inserts;
the unique index on `email` rejects a duplicate with E11000. -/
def userModelCreate (db : DB) (firstname : String) (lastname : Option String)
    (email : String) (password : BHash) : Except DbErr (UserRow × DB) :=
  if !(userSchemaValid firstname lastname email) then
    Except.error .validationFailed
  else if db.users.any (fun r => r.email == email) then
    Except.error .duplicateKey
  else
    let row : UserRow := ⟨db.nextId, firstname, lastname, email, password⟩
    Except.ok (row, { db with users := db.users ++ [row], nextId := db.nextId + 1 })

/-- `userService.createUser({firstname, lastname, email, password})`:
throws `"All fields are required"` when `firstname`, `email` or
`password` is falsy (the password hash is always present here), then
calls `userModel.create`. -/
def createUser (db : DB) (firstname : String) (lastname : Option String)
    (email : String) (password : BHash) : Except DbErr (UserRow × DB) :=
  if firstname == "" || email == "" then
    Except.error .validationFailed
  else
    userModelCreate db firstname lastname email password

/-- The `captainSchema` field validators: `fullname.firstname`
required, 3–20 chars; `fullname.lastname` optional, 3–20 when present;
`email` required, lowercased by its setter, matching the captain email
regex; `password` required with `minlength 8` — checked against the
60-character bcrypt digest string; `vehicle.color` required,
`minlength 3`; `vehicle.plate` required; `vehicle.capacity` `min 1`;
`vehicle.vehicleType` constrained by its enum (our inductive type). -/
def captainSchemaValid (firstname : String) (lastname : Option String)
    (emailLc : String) (password : BHash) (vehicle : Vehicle) : Bool :=
  decide (3 ≤ firstname.length) && decide (firstname.length ≤ 20) &&
    (match lastname with
     | none => true
     | some l => decide (3 ≤ l.length) && decide (l.length ≤ 20)) &&
    (!emailLc.isEmpty) && captainEmailOk emailLc &&
    decide (8 ≤ password.strLength) &&
    decide (3 ≤ vehicle.color.length) &&
    (!vehicle.plate.isEmpty) &&
    decide (1 ≤ vehicle.capacity)

/-- `captainModel.create(...)`: applies the `lowercase` setter to the
email, runs the schema validators, then inserts; the unique indexes on
`email` and `vehicle.plate` reject duplicates with E11000. The
`status` field takes its schema default `inactive`. -/
def captainModelCreate (db : DB) (firstname : String) (lastname : Option String)
    (email : String) (password : BHash) (vehicle : Vehicle) :
    Except DbErr (CaptainRow × DB) :=
  let emailLc := jsToLowerCase email
  if !(captainSchemaValid firstname lastname emailLc password vehicle) then
    Except.error .validationFailed
  else if db.captains.any (fun r => r.email == emailLc) then
    Except.error .duplicateKey
  else if db.captains.any (fun r => r.vehicle.plate == vehicle.plate) then
    Except.error .duplicateKey
  else
    let row : CaptainRow :=
      ⟨db.nextId, firstname, lastname, emailLc, password, .inactive, vehicle⟩
    Except.ok (row, { db with captains := db.captains ++ [row], nextId := db.nextId + 1 })

/-- `captainService.createCaptain(...)`: throws
`"All fields are required"` when any of `firstname`, `lastname`,
`email`, `password`, `color`, `plate`, `capacity`, `vehicleType` is
falsy (note `lastname` *is* required here, and `capacity` is falsy at
`0`; the hash and the enum value are always truthy), then calls
`captainModel.create`. -/
def createCaptain (db : DB) (firstname : String) (lastname : Option String)
    (email : String) (password : BHash) (vehicle : Vehicle) :
    Except DbErr (CaptainRow × DB) :=
  if firstname == "" || (match lastname with | none => true | some l => l == "") ||
      email == "" || vehicle.color == "" || vehicle.plate == "" ||
      vehicle.capacity == 0 then
    Except.error .validationFailed
  else
    captainModelCreate db firstname lastname email password vehicle

/-! ## Controllers

Each controller takes the outcome of the route's `express-validator`
chain as an input list `errors` (the controller source only branches
on `validationResult(req)` being empty), the process-wide signing
secret `process.env.JWT_SECRET`, a fresh bcrypt salt where it hashes,
and the current time.  A controller with no `try/catch` around a
throwing call returns `Except.error ()` for the unhandled rejection. -/

structure UserRegisterBody where
  firstname : String
  lastname : Option String
  email : String
  password : String
deriving DecidableEq, Repr

/-- `registerUser` (`controllers/user.controller.js`): 400 with the
validator errors; otherwise hash the password, call
`userService.createUser` inside `try`, and answer 201 with the created
document (as returned by `create`, so with the hash present) and a
fresh token, or 500 from the `catch` on any thrown error (including
the duplicate-email E11000). -/
def registerUser (db : DB) (errors : List String) (b : UserRegisterBody)
    (secret : String) (salt now : Nat) : Response × DB :=
  if !errors.isEmpty then
    ({ status := 400, body := .errs errors }, db)
  else
    let hashedPassword := bcryptHash b.password salt
    match createUser db b.firstname b.lastname b.email hashedPassword with
    | .ok (user, db') =>
      let token := generateAuthToken user.id secret now
      ({ status := 201,
         body := .userWithToken "User created successfully" user.toDocWithPassword token },
       db')
    | .error _ =>
      ({ status := 500, body := .msg "Internal server error" }, db)

/-- `loginUser`: 400 with validator errors; `findOne({email}).select("+password")`;
404 `"User not found"` when absent; 401 `"Invalid credentials"` on a
`comparePassword` mismatch; else 200 `"Login successful"` with the
`+password` document and a fresh token, also set as a cookie. -/
def loginUser (db : DB) (errors : List String) (email password : String)
    (secret : String) (now : Nat) : Response × DB :=
  if !errors.isEmpty then
    ({ status := 400, body := .errs errors }, db)
  else
    match db.users.find? (fun r => r.email == email) with
    | none => ({ status := 404, body := .msg "User not found" }, db)
    | some user =>
      if !(bcryptCompare password user.password) then
        ({ status := 401, body := .msg "Invalid credentials" }, db)
      else
        let token := generateAuthToken user.id secret now
        ({ status := 200,
           body := .userWithToken "Login successful" user.toDocWithPassword token,
           setCookie := some token },
         db)

/-- `getUserProfile`: answers 200 with `req.user` as attached by the
`authUser` middleware. -/
def getUserProfile (user : UserDoc) : Response :=
  { status := 200, body := .userOnly user }

structure CaptainRegisterBody where
  firstname : String
  lastname : Option String
  email : String
  password : String
  vehicle : Vehicle
deriving DecidableEq, Repr

/-- `registerCaptain` (`controllers/captain.controller.js`): 400 with
validator errors; pre-checks `findOne({email})` and answers 400
`'Captain with this email already exists'` on a hit (before any
write); otherwise hashes and calls `captainService.createCaptain` —
with **no** `try/catch`, so a thrown service/validation/duplicate-key
error is an unhandled rejection; on success answers 201 with a fresh
token and the created document (hash present). -/
def registerCaptain (db : DB) (errors : List String) (b : CaptainRegisterBody)
    (secret : String) (salt now : Nat) : Except Unit (Response × DB) :=
  if !errors.isEmpty then
    Except.ok ({ status := 400, body := .errs errors }, db)
  else if db.captains.any (fun r => r.email == jsToLowerCase b.email) then
    Except.ok ({ status := 400, body := .msg "Captain with this email already exists" }, db)
  else
    let hashedPassword := bcryptHash b.password salt
    match createCaptain db b.firstname b.lastname b.email hashedPassword b.vehicle with
    | .error _ => Except.error ()
    | .ok (captain, db') =>
      let token := generateAuthToken captain.id secret now
      Except.ok
        ({ status := 201,
           body := .captainWithToken "Captain registered successfully" token
             captain.toDocWithPassword },
         db')

/-- `loginCaptain`: 400 with validator errors;
`findOne({email}).select('+password')` (the `lowercase` setter runs on
the filter); 400 `'Invalid email or password'` when absent **and**
the same 400 on a `comparePassword` mismatch; else 200 with a fresh
token (also set as a cookie) and the `+password` document. -/
def loginCaptain (db : DB) (errors : List String) (email password : String)
    (secret : String) (now : Nat) : Response × DB :=
  if !errors.isEmpty then
    ({ status := 400, body := .errs errors }, db)
  else
    match db.captains.find? (fun r => r.email == jsToLowerCase email) with
    | none => ({ status := 400, body := .msg "Invalid email or password" }, db)
    | some captain =>
      if !(bcryptCompare password captain.password) then
        ({ status := 400, body := .msg "Invalid email or password" }, db)
      else
        let token := generateAuthToken captain.id secret now
        ({ status := 200,
           body := .captainWithToken "Captain logged in successfully" token
             captain.toDocWithPassword,
           setCookie := some token },
         db)

/-- `getCaptainProfile`: 404 `'Captain not found'` when `req.captain`
is missing, else 200 with the attached captain. -/
def getCaptainProfile (captain : Option CaptainDoc) : Response :=
  match captain with
  | none => { status := 404, body := .msg "Captain not found" }
  | some c =>
    { status := 200, body := .captainProfile "Captain profile retrieved successfully" c }

/-- `logoutCaptain`: 400 `'No token found'` when neither cookie nor
bearer token is present; otherwise `blacklistTokenModel.create({token})`
— with **no** `try/catch`, so the duplicate-key rejection on an
already-ledgered token is an unhandled rejection — then clears the
`token` cookie and answers 200. -/
def logoutCaptain (db : DB) (now : Nat) (req : Request) :
    Except Unit (Response × DB) :=
  match extractToken req with
  | none => Except.ok ({ status := 400, body := .msg "No token found" }, db)
  | some token =>
    match blacklistCreate db.blacklist now token with
    | .error _ => Except.error ()
    | .ok bl' =>
      Except.ok
        ({ status := 200, body := .msg "Captain logged out successfully",
           clearCookie := true },
         { db with blacklist := bl' })

/-! ## Verifier middleware (`middlewares/auth.middleware.js`) -/

inductive AuthResult (α : Type)
  | reject (status : Nat) (message : String)
  | grant (principal : α)
deriving DecidableEq, Repr

/-- `authUser`: extract the token (cookie first, else bearer header) —
401 when absent; then check the blacklist — 401 when revoked; then
`jwt.verify` — 401 from the `catch` when the signature or expiry check
fails; then `userModel.findById(decoded._id).select("-password")` —
404 when the user is gone; else attach the user (sans hash) and let the request through. -/
def authUser (db : DB) (secret : String) (now : Nat) (req : Request) :
    AuthResult UserDoc :=
  match extractToken req with
  | none => .reject 401 "No Token Found | Unatuhorized"
  | some token =>
    match blacklistFindOne db.blacklist now token with
    | some _ => .reject 401 "Token is Blacklisted | Unauthorized"
    | none =>
      match jwtVerify token secret now with
      | none => .reject 401 "Invalid Token | Unauthorized"
      | some id =>
        match db.users.find? (fun r => r.id == id) with
        | none => .reject 404 "User Not Found"
        | some user => .grant user.toDocNoPassword

/-- `authCaptain`: identical pipeline over the captain collection. -/
def authCaptain (db : DB) (secret : String) (now : Nat) (req : Request) :
    AuthResult CaptainDoc :=
  match extractToken req with
  | none => .reject 401 "No Token Found | Unatuhorized"
  | some token =>
    match blacklistFindOne db.blacklist now token with
    | some _ => .reject 401 "Token is Blacklisted | Unauthorized"
    | none =>
      match jwtVerify token secret now with
      | none => .reject 401 "Invalid Token | Unauthorized"
      | some id =>
        match db.captains.find? (fun r => r.id == id) with
        | none => .reject 404 "Captain Not Found"
        | some captain => .grant captain.toDocNoPassword

/-! ## Routed endpoints (middleware composed with controller) -/

/-- `router.get('/profile', authMiddleware.authCaptain, getCaptainProfile)`. -/
def captainProfileEndpoint (db : DB) (secret : String) (now : Nat)
    (req : Request) : Response :=
  match authCaptain db secret now req with
  | .reject s m => { status := s, body := .msg m }
  | .grant c => getCaptainProfile (some c)

/-- `router.get('/logout', authMiddleware.authCaptain, logoutCaptain)`. -/
def captainLogoutEndpoint (db : DB) (secret : String) (now : Nat)
    (req : Request) : Except Unit (Response × DB) :=
  match authCaptain db secret now req with
  | .reject s m => Except.ok ({ status := s, body := .msg m }, db)
  | .grant _ => logoutCaptain db now req

/-! ## Client-side session guards -/

/-- The outcome of one activation of a protect-wrapper: whether a
profile fetch was issued, where (if anywhere) the guard navigated,
whether the locally stored token was removed, and the principal state
it populated. -/
structure GuardOutcome where
  requestedProfile : Bool
  navigatedTo : Option String
  tokenCleared : Bool
  principalSet : Option CaptainDoc
deriving DecidableEq, Repr

/-- The resolution of the guard's axios profile fetch: a resolved
response with its status and optional `data.captain`, or a rejection
(network failure or non-2xx status). -/
inductive FetchResult
  | ok (status : Nat) (captain : Option CaptainDoc)
  | err
deriving DecidableEq, Repr

/-- `CaptainProtectWrapper.jsx`: with no stored token, navigate to
`/captainlogin` without contacting the server; with a token, fetch
`/captains/profile` with the bearer header; in `.then`, if the status
is 200 and `data.captain` is present, populate the captain state, else
clear the token, null the captain and navigate to login; in `.catch`,
likewise clear and navigate. -/
def CaptainProtectWrapper (token : Option Token) (fetch : FetchResult) :
    GuardOutcome :=
  match token with
  | none =>
    { requestedProfile := false, navigatedTo := some "/captainlogin",
      tokenCleared := false, principalSet := none }
  | some _ =>
    match fetch with
    | .ok st c? =>
      -- `if (response.status === 200 && response.data && response.data.captain)`
      if st = 200 then
        match c? with
        | some c =>
          { requestedProfile := true, navigatedTo := none,
            tokenCleared := false, principalSet := some c }
        | none =>
          { requestedProfile := true, navigatedTo := some "/captainlogin",
            tokenCleared := true, principalSet := none }
      else
        { requestedProfile := true, navigatedTo := some "/captainlogin",
          tokenCleared := true, principalSet := none }
    | .err =>
      { requestedProfile := true, navigatedTo := some "/captainlogin",
        tokenCleared := true, principalSet := none }

/-- `UserProtectWrapper` (frontend source): its effect only checks the
locally stored token — when absent it navigates to `/login`; when
present it renders the children with **no** profile fetch, no token
clearing and no principal population. -/
def UserProtectWrapper (token : Option Token) : GuardOutcome :=
  match token with
  | none =>
    { requestedProfile := false, navigatedTo := some "/login",
      tokenCleared := false, principalSet := none }
  | some _ =>
    { requestedProfile := false, navigatedTo := none,
      tokenCleared := false, principalSet := none }

/-! ## Concrete fixtures

A small populated world used by the concrete evaluations below: one
registered rider (`a@x.com` / `secret123`, id 0), one registered
captain (`a@x.com` / `abcdef12`, id 1), the captain's issued token,
and the database state after that token has been revoked. -/

def wub : UserRegisterBody := ⟨"Moh", some "Sami", "a@x.com", "secret123"⟩

def wdb0 : DB := ⟨[], [], [], 0⟩

/-- Database after the rider registration succeeds. -/
def wdb1 : DB := (registerUser wdb0 [] wub "s" 7 100).2

def wveh : Vehicle := ⟨"red", "MH02CB4763", 5, .car⟩

def wcb : CaptainRegisterBody := ⟨"Sam", some "Kha", "A@x.com", "abcdef12", wveh⟩

/-- Database after the captain registration also succeeds. -/
def wdb2 : DB :=
  match registerCaptain wdb1 [] wcb "s" 9 100 with
  | .ok (_, d) => d
  | .error _ => wdb1

/-- The captain's auth token, issued at time 100 (captain id is 1). -/
def wtok : Token := jwtSign 1 "s" 100

/-- A request presenting `wtok` as a bearer header. -/
def wreq : Request := ⟨none, some wtok⟩

/-- The response of the captain's successful logout at time 200. -/
def wresp1 : Response :=
  { status := 200, body := .msg "Captain logged out successfully", clearCookie := true }

/-- Database after the captain's logout at time 200 revoked `wtok`. -/
def wdb3 : DB := { wdb2 with blacklist := [⟨wtok, 200⟩] }

/-- The captain row as persisted by the fixture registration (id 1,
email lowercased by the schema setter). -/
def wcrow : CaptainRow :=
  ⟨1, "Sam", some "Kha", "a@x.com", bcryptHash "abcdef12" 9, .inactive, wveh⟩

/-- Project the status code out of a controller result that may be an
unhandled rejection (`none` when the request produced no response). -/
def respStatus? (r : Except Unit (Response × DB)) : Option Nat :=
  match r with
  | .ok (resp, _) => some resp.status
  | .error _ => none

/-! ## Helper lemmas -/

/-- `find?` skips a prefix on which the predicate is everywhere false. -/
lemma find?_append_none {α : Type} (p : α → Bool) {l1 : List α} (l2 : List α)
    (h : ∀ a ∈ l1, p a = false) : (l1 ++ l2).find? p = l2.find? p := by
  induction l1 with
  | nil => rfl
  | cons a l ih =>
    have ha := h a (by simp)
    simp only [List.cons_append, List.find?_cons, ha, cond_false]
    exact ih (fun x hx => h x (by simp [hx]))

/-- A string of positive length is not `""` under boolean equality. -/
lemma beq_empty_eq_false {s : String} (h : 1 ≤ s.length) : (s == "") = false := by
  refine beq_eq_false_iff_ne.mpr (fun he => ?_)
  subst he
  simp at h

/-- A successful `userModel.create` only touches the user collection. -/
lemma userModelCreate_ok_blacklist {db : DB} {f : String} {l : Option String}
    {e : String} {p : BHash} {row : UserRow} {db' : DB}
    (h : userModelCreate db f l e p = .ok (row, db')) :
    db'.blacklist = db.blacklist := by
  unfold userModelCreate at h
  by_cases h1 : userSchemaValid f l e
  · by_cases h2 : (db.users.any fun r => r.email == e) = true
    · simp [h1, h2] at h
    · simp only [h1, Bool.not_true, h2, Bool.false_eq_true, if_false, if_neg,
        Except.ok.injEq, Prod.mk.injEq] at h
      rw [← h.2]
  · simp [h1] at h

/-- A successful `userService.createUser` only touches the user
collection. -/
lemma createUser_ok_blacklist {db : DB} {f : String} {l : Option String}
    {e : String} {p : BHash} {row : UserRow} {db' : DB}
    (h : createUser db f l e p = .ok (row, db')) :
    db'.blacklist = db.blacklist := by
  unfold createUser at h
  by_cases hc : (f == "" || e == "") = true
  · simp [hc] at h
  · rw [if_neg hc] at h
    exact userModelCreate_ok_blacklist h

/-- A successful `captainModel.create` only touches the captain
collection. -/
lemma captainModelCreate_ok_blacklist {db : DB} {f : String} {l : Option String}
    {e : String} {p : BHash} {v : Vehicle} {row : CaptainRow} {db' : DB}
    (h : captainModelCreate db f l e p v = .ok (row, db')) :
    db'.blacklist = db.blacklist := by
  unfold captainModelCreate at h
  by_cases h1 : captainSchemaValid f l (jsToLowerCase e) p v
  · by_cases h2 : (db.captains.any fun r => r.email == jsToLowerCase e) = true
    · simp [h1, h2] at h
    · by_cases h3 : (db.captains.any fun r => r.vehicle.plate == v.plate) = true
      · simp [h1, h2, h3] at h
      · simp only [h1, Bool.not_true, h2, h3, Bool.false_eq_true, if_false,
          if_neg, Except.ok.injEq, Prod.mk.injEq] at h
        rw [← h.2]
  · simp [h1] at h

/-- A successful `captainService.createCaptain` only touches the
captain collection. -/
lemma createCaptain_ok_blacklist {db : DB} {f : String} {l : Option String}
    {e : String} {p : BHash} {v : Vehicle} {row : CaptainRow} {db' : DB}
    (h : createCaptain db f l e p v = .ok (row, db')) :
    db'.blacklist = db.blacklist := by
  unfold createCaptain at h
  split at h
  · exact Except.noConfusion h
  · exact captainModelCreate_ok_blacklist h

/-! ## Theorems -/

/-- C1: for every protected request carrying a token, both verifier
gates (`authUser` and `authCaptain`) consult the revocation ledger
before signature/expiry validation: a revoked token is rejected with
HTTP 401 and message "Token is Blacklisted | Unauthorized" no matter
what — in particular even when it has not reached its natural expiry —
while an unrevoked token failing signature/expiry validation gets the
same 401 status with the different message
"Invalid Token | Unauthorized"; and the principal-store lookup is
reached only after both checks pass: a granted request, or a 404
from the lookup, implies the token was both unrevoked and
successfully verified. -/
theorem authGate_revocation_before_validation
    (db : DB) (secret : String) (now : Nat) (req : Request) (tok : Token)
    (htok : extractToken req = some tok) :
    ((blacklistFindOne db.blacklist now tok).isSome →
        authUser db secret now req =
          .reject 401 "Token is Blacklisted | Unauthorized" ∧
        authCaptain db secret now req =
          .reject 401 "Token is Blacklisted | Unauthorized") ∧
    (blacklistFindOne db.blacklist now tok = none →
      jwtVerify tok secret now = none →
        authUser db secret now req = .reject 401 "Invalid Token | Unauthorized" ∧
        authCaptain db secret now req = .reject 401 "Invalid Token | Unauthorized") ∧
    ((authUser db secret now req = .reject 404 "User Not Found" ∨
        (∃ u, authUser db secret now req = .grant u)) →
      blacklistFindOne db.blacklist now tok = none ∧
        (jwtVerify tok secret now).isSome) ∧
    ((authCaptain db secret now req = .reject 404 "Captain Not Found" ∨
        (∃ c, authCaptain db secret now req = .grant c)) →
      blacklistFindOne db.blacklist now tok = none ∧
        (jwtVerify tok secret now).isSome) := by
  refine ⟨?_, ?_, ?_, ?_⟩
  · intro hbl
    rcases Option.isSome_iff_exists.mp hbl with ⟨e, he⟩
    constructor <;> simp [authUser, authCaptain, htok, he]
  · intro hbl hjv
    constructor <;> simp [authUser, authCaptain, htok, hbl, hjv]
  · intro h
    cases hbl : blacklistFindOne db.blacklist now tok with
    | some e =>
      exfalso
      rcases h with h | ⟨u, h⟩ <;> simp [authUser, htok, hbl] at h
    | none =>
      cases hjv : jwtVerify tok secret now with
      | none =>
        exfalso
        rcases h with h | ⟨u, h⟩ <;> simp [authUser, htok, hbl, hjv] at h
      | some id => exact ⟨rfl, by simp [hjv]⟩
  · intro h
    cases hbl : blacklistFindOne db.blacklist now tok with
    | some e =>
      exfalso
      rcases h with h | ⟨c, h⟩ <;> simp [authCaptain, htok, hbl] at h
    | none =>
      cases hjv : jwtVerify tok secret now with
      | none =>
        exfalso
        rcases h with h | ⟨c, h⟩ <;> simp [authCaptain, htok, hbl, hjv] at h
      | some id => exact ⟨rfl, by simp [hjv]⟩

/-- Witness for C1: in the fixture world, the revoked (but unexpired:
`300 < exp = 86500`) captain token is rejected 401 as blacklisted. -/
theorem authGate_revocation_before_validation_witness :
    authCaptain wdb3 "s" 300 wreq =
      .reject 401 "Token is Blacklisted | Unauthorized" :=
  ((authGate_revocation_before_validation wdb3 "s" 300 wreq wtok
    (by decide)).1 (by decide)).2

/-- C2 (refuted at a concrete input, in accordance with the
repository's own walkthrough documentation that the password hash is
omitted from responses): the 200 login response and the 201
registration response both serialize the principal document with the
stored bcrypt hash present — `loginUser` fetches with
`.select("+password")` and passes that document to `res.json`, and
`create`'s return value carries the hash because `select: false` only
affects queries. -/
theorem login_response_serializes_secretHash :
    (loginUser wdb1 [] "a@x.com" "secret123" "s" 200).1.status = 200 ∧
    (loginUser wdb1 [] "a@x.com" "secret123" "s" 200).1.body.leaksHash = true ∧
    (registerUser wdb0 [] wub "s" 7 100).1.status = 201 ∧
    (registerUser wdb0 [] wub "s" 7 100).1.body.leaksHash = true := by
  refine ⟨by decide, by decide, by decide, by decide⟩

/-- Counterexample to C3: registering the same rider email a second
time does not produce the claimed 400 DuplicateAddress response — the
unique-index rejection lands in `registerUser`'s catch-all, which
answers 500 "Internal server error". -/
theorem duplicate_user_registration_returns_500 :
    (registerUser wdb1 [] wub "s" 8 300).1.status = 500 ∧
    ¬ (registerUser wdb1 [] wub "s" 8 300).1.status = 400 :=
  ⟨by decide, by decide⟩

/-- C3 as amended: a same-kind duplicate address never persists a
second principal, but the failure mode differs by kind — captain
registration pre-checks the email and answers 400 before any write;
rider registration only fails at the write, where the unique index
rejects the insert and the controller's catch converts it to 500 (the
database is returned unchanged in both cases); and the same address
registers successfully under the other kind: a rider (resp. captain)
registration with an address fresh in its own collection succeeds with
201 regardless of the other collection's contents. -/
theorem duplicate_registration_behavior
    (db : DB) (secret : String) (salt now : Nat)
    (b : UserRegisterBody) (c : CaptainRegisterBody) :
    (db.captains.any (fun r => r.email == jsToLowerCase c.email) = true →
      registerCaptain db [] c secret salt now =
        .ok ({ status := 400,
               body := .msg "Captain with this email already exists" }, db)) ∧
    (db.users.any (fun r => r.email == b.email) = true →
      registerUser db [] b secret salt now =
        ({ status := 500, body := .msg "Internal server error" }, db)) ∧
    (userSchemaValid b.firstname b.lastname b.email = true →
      db.users.any (fun r => r.email == b.email) = false →
      (registerUser db [] b secret salt now).1.status = 201) ∧
    (captainSchemaValid c.firstname c.lastname (jsToLowerCase c.email)
        (bcryptHash c.password salt) c.vehicle = true →
      (∃ l, c.lastname = some l) →
      db.captains.any (fun r => r.email == jsToLowerCase c.email) = false →
      db.captains.any (fun r => r.vehicle.plate == c.vehicle.plate) = false →
      respStatus? (registerCaptain db [] c secret salt now) = some 201) := by
  refine ⟨?_, ?_, ?_, ?_⟩
  · intro hdup
    simp [registerCaptain, hdup]
  · intro hdup
    have hcr : ∀ h, userModelCreate db b.firstname b.lastname b.email h =
        Except.error .validationFailed ∨
        userModelCreate db b.firstname b.lastname b.email h =
        Except.error .duplicateKey := by
      intro h
      unfold userModelCreate
      by_cases hv : userSchemaValid b.firstname b.lastname b.email
      · right; simp [hv, hdup]
      · left; simp [hv]
    unfold registerUser createUser
    by_cases hf : (b.firstname == "" || b.email == "") = true
    · simp [hf]
    · simp only [Bool.not_eq_true] at hf
      rcases hcr (bcryptHash b.password salt) with h | h <;> simp [hf, h]
  · intro hval hfresh
    have hparts := hval
    unfold userSchemaValid at hparts
    simp only [Bool.and_eq_true] at hparts
    obtain ⟨⟨⟨⟨h1, _⟩, _⟩, h4⟩, _⟩ := hparts
    have hfn : (b.firstname == "") = false :=
      beq_empty_eq_false (by have := of_decide_eq_true h1; omega)
    have hen : (b.email == "") = false := by
      refine beq_eq_false_iff_ne.mpr (fun he => ?_)
      rw [he] at h4
      exact absurd h4 (by decide)
    simp [registerUser, createUser, userModelCreate, hval, hfresh, hfn, hen]
  · intro hval hsome hfresh hplate
    obtain ⟨l, hl⟩ := hsome
    have hparts := hval
    unfold captainSchemaValid at hparts
    simp only [Bool.and_eq_true] at hparts
    obtain ⟨⟨⟨⟨⟨⟨⟨⟨h1, _⟩, h3⟩, h4⟩, _⟩, _⟩, h7⟩, h8⟩, h9⟩ := hparts
    have hfn : (c.firstname == "") = false :=
      beq_empty_eq_false (by have := of_decide_eq_true h1; omega)
    have hln : (l == "") = false := by
      rw [hl] at h3
      simp only [Bool.and_eq_true] at h3
      exact beq_empty_eq_false (by have := of_decide_eq_true h3.1; omega)
    have hen : (c.email == "") = false := by
      refine beq_eq_false_iff_ne.mpr (fun he => ?_)
      rw [he] at h4
      exact absurd h4 (by decide)
    have hcn : (c.vehicle.color == "") = false :=
      beq_empty_eq_false (by have := of_decide_eq_true h7; omega)
    have hpn : (c.vehicle.plate == "") = false := by
      refine beq_eq_false_iff_ne.mpr (fun he => ?_)
      rw [he] at h8
      exact absurd h8 (by decide)
    have hcap : (c.vehicle.capacity == 0) = false := by
      have := of_decide_eq_true h9
      exact beq_eq_false_iff_ne.mpr (by omega)
    rw [hl] at hval
    simp [respStatus?, registerCaptain, hfresh, createCaptain, hl, hfn, hln,
      hen, hcn, hpn, hcap, captainModelCreate, hval, hplate]

/-- Witness for C3's amended statement: in the fixture world a second
captain registration with the already-taken (case-normalized) address
`a@x.com` answers 400 before any write. -/
theorem duplicate_registration_behavior_witness :
    registerCaptain wdb2 [] wcb "s" 9 300 =
      .ok ({ status := 400,
             body := .msg "Captain with this email already exists" }, wdb2) :=
  (duplicate_registration_behavior wdb2 "s" 9 300 wub wcb).1 (by decide)

/-- Counterexample to C4: captain login does not use the claimed
404/401 split — a wrong secret for an existing captain address answers
400 (not 401), and an unknown address answers 400 (not 404), both with
the same "Invalid email or password" message. -/
theorem captainLogin_statuses_differ_from_claim :
    (loginCaptain wdb2 [] "a@x.com" "wrongpass" "s" 200).1.status = 400 ∧
    ¬ (loginCaptain wdb2 [] "a@x.com" "wrongpass" "s" 200).1.status = 401 ∧
    (loginCaptain wdb2 [] "nobody@x.com" "abcdef12" "s" 200).1.status = 400 ∧
    ¬ (loginCaptain wdb2 [] "nobody@x.com" "abcdef12" "s" 200).1.status = 404 :=
  ⟨by decide, by decide, by decide, by decide⟩

/-- C4 as amended: both login controllers answer 400 with the
validator errors on validation failure and 200 with the principal, a
fresh token, and that token set as a cookie on success; but only the
rider login distinguishes the failure causes as 404 (no principal for
the address) and 401 (secret mismatch) — the captain login answers 400
with the same "Invalid email or password" message in both of those
cases. -/
theorem login_status_codes
    (db : DB) (errors : List String) (email password secret : String) (now : Nat) :
    (errors ≠ [] →
      (loginUser db errors email password secret now).1.status = 400 ∧
      (loginCaptain db errors email password secret now).1.status = 400) ∧
    (errors = [] → db.users.find? (fun r => r.email == email) = none →
      loginUser db errors email password secret now =
        ({ status := 404, body := .msg "User not found" }, db)) ∧
    (∀ u, errors = [] → db.users.find? (fun r => r.email == email) = some u →
      bcryptCompare password u.password = false →
      loginUser db errors email password secret now =
        ({ status := 401, body := .msg "Invalid credentials" }, db)) ∧
    (∀ u, errors = [] → db.users.find? (fun r => r.email == email) = some u →
      bcryptCompare password u.password = true →
      loginUser db errors email password secret now =
        ({ status := 200,
           body := .userWithToken "Login successful" u.toDocWithPassword
             (generateAuthToken u.id secret now),
           setCookie := some (generateAuthToken u.id secret now) }, db)) ∧
    (errors = [] →
      db.captains.find? (fun r => r.email == jsToLowerCase email) = none →
      loginCaptain db errors email password secret now =
        ({ status := 400, body := .msg "Invalid email or password" }, db)) ∧
    (∀ cr, errors = [] →
      db.captains.find? (fun r => r.email == jsToLowerCase email) = some cr →
      bcryptCompare password cr.password = false →
      loginCaptain db errors email password secret now =
        ({ status := 400, body := .msg "Invalid email or password" }, db)) ∧
    (∀ cr, errors = [] →
      db.captains.find? (fun r => r.email == jsToLowerCase email) = some cr →
      bcryptCompare password cr.password = true →
      loginCaptain db errors email password secret now =
        ({ status := 200,
           body := .captainWithToken "Captain logged in successfully"
             (generateAuthToken cr.id secret now) cr.toDocWithPassword,
           setCookie := some (generateAuthToken cr.id secret now) }, db)) := by
  refine ⟨?_, ?_, ?_, ?_, ?_, ?_, ?_⟩
  · intro h
    cases errors with
    | nil => exact absurd rfl h
    | cons a t => exact ⟨by simp [loginUser], by simp [loginCaptain]⟩
  · intro he hfind
    subst he
    simp [loginUser, hfind]
  · intro u he hfind hcmp
    subst he
    simp [loginUser, hfind, hcmp]
  · intro u he hfind hcmp
    subst he
    simp [loginUser, hfind, hcmp]
  · intro he hfind
    subst he
    simp [loginCaptain, hfind]
  · intro cr he hfind hcmp
    subst he
    simp [loginCaptain, hfind, hcmp]
  · intro cr he hfind hcmp
    subst he
    simp [loginCaptain, hfind, hcmp]

/-- Witness for C4's amended statement: the fixture captain with a
wrong secret gets the 400 "Invalid email or password" answer. -/
theorem login_status_codes_witness :
    loginCaptain wdb2 [] "a@x.com" "wrongpass" "s" 200 =
      ({ status := 400, body := .msg "Invalid email or password" }, wdb2) :=
  (login_status_codes wdb2 [] "a@x.com" "wrongpass" "s" 200).2.2.2.2.2.1
    ⟨1, "Sam", some "Kha", "a@x.com", bcryptHash "abcdef12" 9, .inactive, wveh⟩
    rfl (by decide) (by decide)

/-- C5: `generateAuthToken` embeds the principal's id as the token's
subject and the issue time, signs with the process-wide secret, and
sets the expiry exactly one day after issuance; consequently, for
either principal kind, after a valid registration a login with the
same address and secret succeeds with 200 and returns a token whose
embedded subject id equals the freshly created principal's id
(`db.nextId`) — for captains through their own code path, where the
schema's `lowercase` setter normalizes the address both on store and
on the login filter. -/
theorem token_issuance_and_register_login_roundtrip
    (db : DB) (b : UserRegisterBody) (c : CaptainRegisterBody)
    (secret : String) (salt now1 now2 : Nat) :
    (∀ id s n, generateAuthToken id s n =
      { subjectId := id, iat := n, exp := n + oneDay, secret := s }) ∧
    (userSchemaValid b.firstname b.lastname b.email = true →
      db.users.any (fun r => r.email == b.email) = false →
      (registerUser db [] b secret salt now1).1.status = 201 ∧
      loginUser (registerUser db [] b secret salt now1).2 [] b.email b.password
          secret now2 =
        ({ status := 200,
           body := .userWithToken "Login successful"
             (UserRow.toDocWithPassword
               ⟨db.nextId, b.firstname, b.lastname, b.email,
                bcryptHash b.password salt⟩)
             (generateAuthToken db.nextId secret now2),
           setCookie := some (generateAuthToken db.nextId secret now2) },
         (registerUser db [] b secret salt now1).2)) ∧
    (captainSchemaValid c.firstname c.lastname (jsToLowerCase c.email)
        (bcryptHash c.password salt) c.vehicle = true →
      (∃ l, c.lastname = some l) →
      db.captains.any (fun r => r.email == jsToLowerCase c.email) = false →
      db.captains.any (fun r => r.vehicle.plate == c.vehicle.plate) = false →
      registerCaptain db [] c secret salt now1 =
        .ok
          ({ status := 201,
             body := .captainWithToken "Captain registered successfully"
               (generateAuthToken db.nextId secret now1)
               (CaptainRow.toDocWithPassword
                 ⟨db.nextId, c.firstname, c.lastname, jsToLowerCase c.email,
                  bcryptHash c.password salt, .inactive, c.vehicle⟩) },
           { db with
               captains := db.captains ++
                 [⟨db.nextId, c.firstname, c.lastname, jsToLowerCase c.email,
                   bcryptHash c.password salt, .inactive, c.vehicle⟩],
               nextId := db.nextId + 1 }) ∧
      loginCaptain
          { db with
              captains := db.captains ++
                [⟨db.nextId, c.firstname, c.lastname, jsToLowerCase c.email,
                  bcryptHash c.password salt, .inactive, c.vehicle⟩],
              nextId := db.nextId + 1 }
          [] c.email c.password secret now2 =
        ({ status := 200,
           body := .captainWithToken "Captain logged in successfully"
             (generateAuthToken db.nextId secret now2)
             (CaptainRow.toDocWithPassword
               ⟨db.nextId, c.firstname, c.lastname, jsToLowerCase c.email,
                bcryptHash c.password salt, .inactive, c.vehicle⟩),
           setCookie := some (generateAuthToken db.nextId secret now2) },
         { db with
             captains := db.captains ++
               [⟨db.nextId, c.firstname, c.lastname, jsToLowerCase c.email,
                 bcryptHash c.password salt, .inactive, c.vehicle⟩],
             nextId := db.nextId + 1 })) := by
  refine ⟨fun id s n => rfl, ?_, ?_⟩
  · intro hval hfresh
    have hparts := hval
    unfold userSchemaValid at hparts
    simp only [Bool.and_eq_true] at hparts
    obtain ⟨⟨⟨⟨h1, _⟩, _⟩, h4⟩, _⟩ := hparts
    have hfn : (b.firstname == "") = false :=
      beq_empty_eq_false (by have := of_decide_eq_true h1; omega)
    have hen : (b.email == "") = false := by
      refine beq_eq_false_iff_ne.mpr (fun he => ?_)
      rw [he] at h4
      exact absurd h4 (by decide)
    have hreg : registerUser db [] b secret salt now1 =
        ({ status := 201,
           body := .userWithToken "User created successfully"
             (UserRow.toDocWithPassword
               ⟨db.nextId, b.firstname, b.lastname, b.email,
                bcryptHash b.password salt⟩)
             (generateAuthToken db.nextId secret now1) },
         { db with
             users := db.users ++
               [⟨db.nextId, b.firstname, b.lastname, b.email,
                 bcryptHash b.password salt⟩],
             nextId := db.nextId + 1 }) := by
      simp [registerUser, createUser, userModelCreate, hval, hfresh, hfn, hen]
    have hnone : db.users.find? (fun r => r.email == b.email) = none := by
      refine List.find?_eq_none.mpr (fun a ha => ?_)
      have hall := List.any_eq_false.mp hfresh a ha
      simpa using hall
    refine ⟨by rw [hreg], ?_⟩
    rw [hreg]
    simp [loginUser, hnone, bcryptCompare, bcryptHash]
  · intro hcval hsome hcfresh hcplate
    obtain ⟨l, hl⟩ := hsome
    have hparts := hcval
    unfold captainSchemaValid at hparts
    simp only [Bool.and_eq_true] at hparts
    obtain ⟨⟨⟨⟨⟨⟨⟨⟨h1, _⟩, h3⟩, h4⟩, _⟩, _⟩, h7⟩, h8⟩, h9⟩ := hparts
    have hfn : (c.firstname == "") = false :=
      beq_empty_eq_false (by have := of_decide_eq_true h1; omega)
    have hln : (l == "") = false := by
      rw [hl] at h3
      simp only [Bool.and_eq_true] at h3
      exact beq_empty_eq_false (by have := of_decide_eq_true h3.1; omega)
    have hen : (c.email == "") = false := by
      refine beq_eq_false_iff_ne.mpr (fun he => ?_)
      rw [he] at h4
      exact absurd h4 (by decide)
    have hcn : (c.vehicle.color == "") = false :=
      beq_empty_eq_false (by have := of_decide_eq_true h7; omega)
    have hpn : (c.vehicle.plate == "") = false := by
      refine beq_eq_false_iff_ne.mpr (fun he => ?_)
      rw [he] at h8
      exact absurd h8 (by decide)
    have hcap : (c.vehicle.capacity == 0) = false := by
      have := of_decide_eq_true h9
      exact beq_eq_false_iff_ne.mpr (by omega)
    rw [hl] at hcval
    have hnone : db.captains.find? (fun r => r.email == jsToLowerCase c.email) = none := by
      refine List.find?_eq_none.mpr (fun a ha => ?_)
      have hall := List.any_eq_false.mp hcfresh a ha
      simpa using hall
    constructor
    · simp [registerCaptain, hcfresh, createCaptain, hl, hfn, hln, hen, hcn,
        hpn, hcap, captainModelCreate, hcval, hcplate]
    · simp [loginCaptain, hl, hnone, bcryptCompare, bcryptHash]

/-- Witness for C5: the fixture registration/login roundtrips of both
kinds at concrete times — the rider into the empty database, the
captain (with the case-normalized address) on top of it. -/
theorem token_issuance_and_register_login_roundtrip_witness :
    (loginUser (registerUser wdb0 [] wub "s" 7 100).2 [] wub.email wub.password
        "s" 200 =
      ({ status := 200,
         body := .userWithToken "Login successful"
           (UserRow.toDocWithPassword
             ⟨wdb0.nextId, wub.firstname, wub.lastname, wub.email,
              bcryptHash wub.password 7⟩)
           (generateAuthToken wdb0.nextId "s" 200),
         setCookie := some (generateAuthToken wdb0.nextId "s" 200) },
       (registerUser wdb0 [] wub "s" 7 100).2)) ∧
    (loginCaptain
        { wdb1 with captains := wdb1.captains ++ [wcrow], nextId := wdb1.nextId + 1 }
        [] wcb.email wcb.password "s" 300 =
      ({ status := 200,
         body := .captainWithToken "Captain logged in successfully"
           (generateAuthToken 1 "s" 300) wcrow.toDocWithPassword,
         setCookie := some (generateAuthToken 1 "s" 300) },
       { wdb1 with captains := wdb1.captains ++ [wcrow], nextId := wdb1.nextId + 1 })) :=
  ⟨((token_issuance_and_register_login_roundtrip wdb0 wub wcb "s" 7 100 200).2.1
      (by decide) (by decide)).2,
   ((token_issuance_and_register_login_roundtrip wdb1 wub wcb "s" 9 100 300).2.2
      (by decide) ⟨"Kha", rfl⟩ (by decide) (by decide)).2⟩

/-- Counterexample to C6: revoking the already-revoked fixture token
is not a no-op success — `logoutCaptain` does not catch the
unique-constraint rejection of `blacklistTokenModel.create`, so the
request ends in an unhandled error and produces no response at all. -/
theorem revoke_duplicate_insert_raises :
    logoutCaptain wdb3 300 wreq = Except.error () ∧
    respStatus? (logoutCaptain wdb3 300 wreq) = none :=
  ⟨rfl, rfl⟩

/-- C6 as amended: the controller's ledger insert is **not**
idempotent — when the presented token already has a live ledger entry,
the duplicate insert's unique-constraint rejection propagates out of
the controller (no response); only a token with no live entry is
inserted, answering 200 and clearing the cookie. -/
theorem revocation_insert_behavior
    (db : DB) (now : Nat) (req : Request) (tok : Token)
    (htok : extractToken req = some tok) :
    ((ttlActive db.blacklist now).any (fun e => e.token == tok) = true →
      logoutCaptain db now req = Except.error ()) ∧
    ((ttlActive db.blacklist now).any (fun e => e.token == tok) = false →
      logoutCaptain db now req =
        Except.ok
          ({ status := 200, body := .msg "Captain logged out successfully",
             clearCookie := true },
           { db with blacklist := ttlActive db.blacklist now ++ [⟨tok, now⟩] })) := by
  constructor
  · intro hdup
    simp [logoutCaptain, htok, blacklistCreate, hdup]
  · intro hdup
    simp [logoutCaptain, htok, blacklistCreate, hdup]

/-- Witness for C6's amended statement: the fixture captain's first
logout inserts the token and answers 200. -/
theorem revocation_insert_behavior_witness :
    logoutCaptain wdb2 200 wreq =
      Except.ok
        ({ status := 200, body := .msg "Captain logged out successfully",
           clearCookie := true },
         { wdb2 with blacklist := ttlActive wdb2.blacklist 200 ++ [⟨wtok, 200⟩] }) :=
  (revocation_insert_behavior wdb2 200 wreq wtok (by decide)).2 (by decide)

/-- C7: the ledger's TTL window equals the token expiry window (both
one day); an entry is automatically gone from the live collection once
its window has elapsed, and at any such time a token that was revoked
at or after its issuance can no longer pass verification anyway; and
there is no manual deletion path — no modeled operation removes a live
ledger entry (registration and login leave the ledger untouched, and a
successful logout only extends it). -/
theorem ledger_ttl_matches_token_window :
    (blacklistTtl = oneDay ∧
      ∀ id s n, (generateAuthToken id s n).exp = (generateAuthToken id s n).iat + oneDay) ∧
    (∀ (bl : List BlEntry) (e : BlEntry) (now : Nat),
      e.createdAt + blacklistTtl ≤ now → e ∉ ttlActive bl now) ∧
    (∀ (e : BlEntry) (secret : String) (now : Nat),
      e.token.iat ≤ e.createdAt →
      e.token.exp = e.token.iat + oneDay →
      e.createdAt + blacklistTtl ≤ now →
      jwtVerify e.token secret now = none) ∧
    (∀ db errors b secret salt now,
      (registerUser db errors b secret salt now).2.blacklist = db.blacklist) ∧
    (∀ db errors email password secret now,
      (loginUser db errors email password secret now).2.blacklist = db.blacklist ∧
      (loginCaptain db errors email password secret now).2.blacklist = db.blacklist) ∧
    (∀ db errors c secret salt now resp db',
      registerCaptain db errors c secret salt now = .ok (resp, db') →
      db'.blacklist = db.blacklist) ∧
    (∀ db now req resp db',
      logoutCaptain db now req = .ok (resp, db') →
      ∀ e ∈ ttlActive db.blacklist now, e ∈ db'.blacklist) := by
  refine ⟨⟨rfl, fun id s n => rfl⟩, ?_, ?_, ?_, ?_, ?_, ?_⟩
  · intro bl e now h hmem
    have := (List.mem_filter.mp hmem).2
    simp only [decide_eq_true_eq] at this
    omega
  · intro e secret now hiat hexp hle
    unfold jwtVerify
    have hlt : decide (now < e.token.exp) = false := by
      simp only [decide_eq_false_iff_not]
      unfold blacklistTtl oneDay at hle
      unfold oneDay at hexp
      omega
    simp [hlt]
  · intro db errors b secret salt now
    unfold registerUser
    split
    · rfl
    · cases hcr : createUser db b.firstname b.lastname b.email
          (bcryptHash b.password salt) with
      | error _ => simp only [hcr]
      | ok p =>
        obtain ⟨row, db1⟩ := p
        simp only [hcr]
        exact createUser_ok_blacklist hcr
  · intro db errors email password secret now
    constructor
    · unfold loginUser
      repeat' split
      all_goals rfl
    · unfold loginCaptain
      repeat' split
      all_goals rfl
  · intro db errors c secret salt now resp db' h
    unfold registerCaptain at h
    split at h
    · simp only [Except.ok.injEq, Prod.mk.injEq] at h
      rw [← h.2]
    · split at h
      · simp only [Except.ok.injEq, Prod.mk.injEq] at h
        rw [← h.2]
      · cases hcc : createCaptain db c.firstname c.lastname c.email
            (bcryptHash c.password salt) c.vehicle with
        | error u =>
          simp only [hcc] at h
          exact Except.noConfusion h
        | ok p =>
          obtain ⟨captain, db1⟩ := p
          simp only [hcc] at h
          simp only [Except.ok.injEq, Prod.mk.injEq] at h
          rw [← h.2]
          exact createCaptain_ok_blacklist hcc
  · intro db now req resp db' h e he
    cases htk : extractToken req with
    | none =>
      simp only [logoutCaptain, htk] at h
      simp only [Except.ok.injEq, Prod.mk.injEq] at h
      rw [← h.2]
      exact (List.mem_filter.mp he).1
    | some tok =>
      cases hbc : blacklistCreate db.blacklist now tok with
      | error _ =>
        simp only [logoutCaptain, htk, hbc] at h
        exact Except.noConfusion h
      | ok bl' =>
        simp only [logoutCaptain, htk, hbc] at h
        simp only [Except.ok.injEq, Prod.mk.injEq] at h
        rw [← h.2]
        have hset : bl' = ttlActive db.blacklist now ++ [⟨tok, now⟩] := by
          unfold blacklistCreate at hbc
          split at hbc
          · exact Except.noConfusion hbc
          · cases hbc
            rfl
        rw [hset]
        exact List.mem_append_left _ he

/-- Witness for C7: at the eviction boundary of the fixture entry
(time 86600 = 200 + one day), the revoked token itself is already
expired and fails verification. -/
theorem ledger_ttl_matches_token_window_witness :
    jwtVerify wtok "s" 86600 = none :=
  ledger_ttl_matches_token_window.2.2.1 ⟨wtok, 200⟩ "s" 86600
    (by decide) (by decide) (by decide)

/-- Counterexample to C8: with no token on the request, the logout
endpoint (the route's `authCaptain` gate composed with the controller)
answers 401 from the gate, not the claimed 400 — the controller's own
400 branch is never reached. -/
theorem logout_without_token_returns_401 :
    captainLogoutEndpoint wdb2 "s" 200 ⟨none, none⟩ =
      Except.ok
        ({ status := 401, body := .msg "No Token Found | Unatuhorized" }, wdb2) ∧
    ¬ respStatus? (captainLogoutEndpoint wdb2 "s" 200 ⟨none, none⟩) = some 400 :=
  ⟨rfl, by decide⟩

/-- C8 as amended: when a request carries a token that passes the
`authCaptain` gate, the logout endpoint answers 200 with its message
and clears the token cookie; when no token is present, the gate
rejects with 401 "No Token Found | Unatuhorized" before the
controller runs, so the controller's 400 "No token found" branch is
unreachable through the route. -/
theorem logout_endpoint_behavior
    (db : DB) (secret : String) (now : Nat) (req : Request) :
    (extractToken req = none →
      captainLogoutEndpoint db secret now req =
        Except.ok
          ({ status := 401, body := .msg "No Token Found | Unatuhorized" }, db)) ∧
    (∀ c, authCaptain db secret now req = .grant c →
      ∀ tok, extractToken req = some tok →
        captainLogoutEndpoint db secret now req =
          Except.ok
            ({ status := 200, body := .msg "Captain logged out successfully",
               clearCookie := true },
             { db with blacklist := ttlActive db.blacklist now ++ [⟨tok, now⟩] })) := by
  constructor
  · intro htk
    simp [captainLogoutEndpoint, authCaptain, htk]
  · intro c hadm tok htk
    have hbl : blacklistFindOne db.blacklist now tok = none := by
      cases hbl : blacklistFindOne db.blacklist now tok with
      | none => rfl
      | some e => exact absurd hadm (by simp [authCaptain, htk, hbl])
    have hany : ((ttlActive db.blacklist now).any fun x => x.token == tok) = false := by
      cases hany : (ttlActive db.blacklist now).any fun x => x.token == tok with
      | false => rfl
      | true =>
        obtain ⟨x, hx, hpx⟩ := List.any_eq_true.mp hany
        have := List.find?_eq_none.mp hbl x hx
        simp [hpx] at this
    simp [captainLogoutEndpoint, hadm, logoutCaptain, htk, blacklistCreate, hany]

/-- Witness for C8's amended statement: the fixture captain's logout
through the route answers 200 and clears the cookie. -/
theorem logout_endpoint_behavior_witness :
    captainLogoutEndpoint wdb2 "s" 200 wreq =
      Except.ok
        ({ status := 200, body := .msg "Captain logged out successfully",
           clearCookie := true },
         { wdb2 with blacklist := ttlActive wdb2.blacklist 200 ++ [⟨wtok, 200⟩] }) :=
  (logout_endpoint_behavior wdb2 "s" 200 wreq).2
    (CaptainRow.toDocNoPassword
      ⟨1, "Sam", some "Kha", "a@x.com", bcryptHash "abcdef12" 9, .inactive, wveh⟩)
    (by decide) wtok (by decide)

/-- Counterexample to C9: the rider-side guard, with a token held,
contacts no server at all — it issues no profile fetch, populates no
principal state, and can therefore never clear the token on a failed
fetch, contradicting the claim for "every protected client view". -/
theorem userWrapper_no_profile_fetch :
    (UserProtectWrapper (some wtok)).requestedProfile = false ∧
    (UserProtectWrapper (some wtok)).tokenCleared = false ∧
    (UserProtectWrapper (some wtok)).principalSet = none :=
  ⟨rfl, rfl, rfl⟩

/-- C9 as amended: only the captain-side guard implements the claimed
behavior — with no token it redirects to its login view without
contacting the server; with a token it issues the profile fetch,
populates the captain state on a 200 response carrying a captain, and
on any other outcome (non-200 status, missing captain payload, or a
rejected request) clears the stored token and redirects.  The
rider-side guard only redirects when no token is held; with a token it
renders its children with no profile fetch, no token clearing and no
principal population. -/
theorem protect_wrapper_behavior (t : Token) (c : CaptainDoc) (f : FetchResult) :
    (CaptainProtectWrapper none f =
      { requestedProfile := false, navigatedTo := some "/captainlogin",
        tokenCleared := false, principalSet := none }) ∧
    (CaptainProtectWrapper (some t) (.ok 200 (some c)) =
      { requestedProfile := true, navigatedTo := none,
        tokenCleared := false, principalSet := some c }) ∧
    (∀ st c?, (st ≠ 200 ∨ c? = none) →
      CaptainProtectWrapper (some t) (.ok st c?) =
        { requestedProfile := true, navigatedTo := some "/captainlogin",
          tokenCleared := true, principalSet := none }) ∧
    (CaptainProtectWrapper (some t) .err =
      { requestedProfile := true, navigatedTo := some "/captainlogin",
        tokenCleared := true, principalSet := none }) ∧
    (UserProtectWrapper none =
      { requestedProfile := false, navigatedTo := some "/login",
        tokenCleared := false, principalSet := none }) ∧
    (UserProtectWrapper (some t) =
      { requestedProfile := false, navigatedTo := none,
        tokenCleared := false, principalSet := none }) := by
  refine ⟨rfl, by simp [CaptainProtectWrapper], ?_, rfl, rfl, rfl⟩
  intro st c? h
  rcases h with hst | hc
  · simp [CaptainProtectWrapper, hst]
  · subst hc
    by_cases hst : st = 200
    · simp [CaptainProtectWrapper, hst]
    · simp [CaptainProtectWrapper, hst]

/-- Witness for C9's amended statement: a failed (rejected) profile
fetch makes the captain guard clear the token and redirect. -/
theorem protect_wrapper_behavior_witness :
    CaptainProtectWrapper (some wtok) (.ok 401 none) =
      { requestedProfile := true, navigatedTo := some "/captainlogin",
        tokenCleared := true, principalSet := none } :=
  (protect_wrapper_behavior wtok
    (CaptainRow.toDocNoPassword
      ⟨1, "Sam", some "Kha", "a@x.com", bcryptHash "abcdef12" 9, .inactive, wveh⟩)
    .err).2.2.1 401 none (Or.inl (by decide))

/-- The `authCaptain` gate only ever rejects with 401 or 404. -/
lemma authCaptain_reject_status {db : DB} {secret : String} {now : Nat}
    {req : Request} {st : Nat} {m : String}
    (h : authCaptain db secret now req = .reject st m) : st = 401 ∨ st = 404 := by
  unfold authCaptain at h
  repeat' split at h
  all_goals first
    | (cases h; simp)
    | exact AuthResult.noConfusion h

/-- C10: through the HTTP interface the same token is never inserted
into the revocation ledger twice.  After one successful logout through
the route: the token's ledger entry exists; any later request
presenting that token is rejected 401 by the gate (as blacklisted
while the entry lives, as invalid/expired once the entry has been
evicted — by then the token itself is past its expiry); a second
logout through the route therefore answers 401 and leaves the
database untouched; and in general the composed endpoint can never end
in the controller's duplicate-insert rejection: whenever the gate
grants, the token has no live ledger entry, so the insert succeeds. -/
theorem http_revocation_single_insert
    (db : DB) (secret : String) (now1 now2 : Nat) (req1 req2 : Request)
    (tok : Token) (r1 : Response) (db1 : DB)
    (h1 : captainLogoutEndpoint db secret now1 req1 = .ok (r1, db1))
    (hs1 : r1.status = 200)
    (htk1 : extractToken req1 = some tok)
    (htk2 : extractToken req2 = some tok)
    (hiat : tok.iat ≤ now1)
    (hexp : tok.exp = tok.iat + oneDay) :
    (⟨tok, now1⟩ : BlEntry) ∈ db1.blacklist ∧
    (∃ m, authCaptain db1 secret now2 req2 = .reject 401 m ∧
      captainLogoutEndpoint db1 secret now2 req2 =
        Except.ok ({ status := 401, body := .msg m }, db1)) ∧
    (∀ (d : DB) (n : Nat) (r : Request),
      captainLogoutEndpoint d secret n r ≠ Except.error ()) := by
  have hnever : ∀ (d : DB) (n : Nat) (r : Request),
      captainLogoutEndpoint d secret n r ≠ Except.error () := by
    intro d n r hcontra
    unfold captainLogoutEndpoint at hcontra
    cases hga : authCaptain d secret n r with
    | reject s m => simp [hga] at hcontra
    | grant c =>
      simp only [hga] at hcontra
      unfold authCaptain at hga
      cases htk : extractToken r with
      | none => simp [htk] at hga
      | some tk =>
        simp only [htk] at hga
        cases hbl : blacklistFindOne d.blacklist n tk with
        | some e => simp [hbl] at hga
        | none =>
          have hany : ((ttlActive d.blacklist n).any fun x => x.token == tk) = false := by
            cases hany : (ttlActive d.blacklist n).any fun x => x.token == tk with
            | false => rfl
            | true =>
              obtain ⟨x, hx, hpx⟩ := List.any_eq_true.mp hany
              have := List.find?_eq_none.mp hbl x hx
              simp [hpx] at this
          simp [logoutCaptain, htk, blacklistCreate, hany] at hcontra
  have key : db1 = { db with blacklist := ttlActive db.blacklist now1 ++ [⟨tok, now1⟩] } ∧
      ∀ e ∈ ttlActive db.blacklist now1, (e.token == tok) = false := by
    unfold captainLogoutEndpoint at h1
    cases hga : authCaptain db secret now1 req1 with
    | reject s m =>
      exfalso
      simp only [hga, Except.ok.injEq, Prod.mk.injEq] at h1
      rw [← h1.1] at hs1
      rcases authCaptain_reject_status hga with h4 | h4 <;> (subst h4; simp at hs1)
    | grant c =>
      simp only [hga] at h1
      unfold authCaptain at hga
      simp only [htk1] at hga
      cases hbl : blacklistFindOne db.blacklist now1 tok with
      | some e => simp [hbl] at hga
      | none =>
        have hany : ((ttlActive db.blacklist now1).any fun x => x.token == tok) = false := by
          cases hany : (ttlActive db.blacklist now1).any fun x => x.token == tok with
          | false => rfl
          | true =>
            obtain ⟨x, hx, hpx⟩ := List.any_eq_true.mp hany
            have := List.find?_eq_none.mp hbl x hx
            simp [hpx] at this
        unfold logoutCaptain at h1
        simp only [htk1, blacklistCreate, hany, Bool.false_eq_true, if_false,
          if_neg, Except.ok.injEq, Prod.mk.injEq] at h1
        refine ⟨h1.2.symm, ?_⟩
        intro e he
        cases hpe : (e.token == tok) with
        | false => rfl
        | true =>
          have := List.any_eq_false.mp hany e he
          simp [hpe] at this
  obtain ⟨hdb1, hfresh⟩ := key
  refine ⟨?_, ?_, hnever⟩
  · rw [hdb1]
    exact List.mem_append_right _ (by simp)
  · by_cases hact : now2 < now1 + blacklistTtl
    · have hfo : blacklistFindOne db1.blacklist now2 tok = some ⟨tok, now1⟩ := by
        unfold blacklistFindOne ttlActive
        rw [hdb1]
        show (List.filter _ (ttlActive db.blacklist now1 ++ [⟨tok, now1⟩])).find? _ =
          some ⟨tok, now1⟩
        rw [List.filter_append]
        refine Eq.trans (find?_append_none _ _ ?_) ?_
        · intro a ha
          exact hfresh a (List.mem_filter.mp ha).1
        · simp [List.filter, hact]
      refine ⟨"Token is Blacklisted | Unauthorized",
        by simp [authCaptain, htk2, hfo], ?_⟩
      simp [captainLogoutEndpoint, authCaptain, htk2, hfo]
    · have hfo : blacklistFindOne db1.blacklist now2 tok = none := by
        unfold blacklistFindOne ttlActive
        rw [hdb1]
        show (List.filter _ (ttlActive db.blacklist now1 ++ [⟨tok, now1⟩])).find? _ =
          none
        rw [List.filter_append]
        refine Eq.trans (find?_append_none _ _ ?_) ?_
        · intro a ha
          exact hfresh a (List.mem_filter.mp ha).1
        · simp [List.filter, hact]
      have hjv : jwtVerify tok secret now2 = none := by
        unfold jwtVerify
        have hlt : decide (now2 < tok.exp) = false := by
          simp only [decide_eq_false_iff_not]
          unfold blacklistTtl at hact
          unfold oneDay at hact hexp
          omega
        simp [hlt]
      refine ⟨"Invalid Token | Unauthorized",
        by simp [authCaptain, htk2, hfo, hjv], ?_⟩
      simp [captainLogoutEndpoint, authCaptain, htk2, hfo, hjv]

/-- Witness for C10: in the fixture world, after the captain's logout
at time 200, the revoked token's entry is in the ledger. -/
theorem http_revocation_single_insert_witness :
    (⟨wtok, 200⟩ : BlEntry) ∈ wdb3.blacklist :=
  (http_revocation_single_insert wdb2 "s" 200 300 wreq wreq wtok wresp1 wdb3
    rfl rfl rfl rfl (by decide) (by decide)).1

end Musafir
